import Mathlib

/-!
Verification of the stream attacher `__fdopen` from
`src/third_party/ulib/musl/src/stdio/__fdopen.c`.

The C function is embedded shallowly: the OS collaborators (the
`fcntl` flag query/set calls, `malloc`, `isatty`, and the open-file
registry `__ofl_add`) are modelled by an explicit environment record,
and the function returns a result record that captures everything
observable about a call: the returned stream (or null), the `errno`
value the function itself wrote, whether the allocator was invoked,
the descriptor's flag state after the call, the list of
descriptor-mutating system calls issued, and the streams inserted
into the process-wide registry.
-/

namespace Fdopen

/-- Modelled from the spec: the stream mode-flag bits {no-read, no-write,
append} are "a set of independent bits" (their defining header
`stdio_impl.h` is not under `src/`); the concrete values are musl's. -/
def F_NORD : Nat := 4

/-- Modelled from the spec: the no-write mode-flag bit (see `F_NORD`). -/
def F_NOWR : Nat := 8

/-- Modelled from the spec: the stream append mode-flag bit (see `F_NORD`). -/
def F_APP : Nat := 128

/-- Modelled from the spec: the kernel-level append status flag
(`<fcntl.h>` is a system header, not under `src/`); Linux value. -/
def O_APPEND : Nat := 1024

/-- Modelled from the spec: the close-on-exec descriptor flag
(`<fcntl.h>`); POSIX value. -/
def FD_CLOEXEC : Nat := 1

/-- Modelled from the spec: the invalid-argument errno code
(`<errno.h>`); Linux value. -/
def EINVAL : Nat := 22

/-- Modelled from the spec: the "not active" sentinel for the
line-buffering byte (`<stdio.h>` EOF). -/
def EOF : Int := -1

/-- Modelled from the spec: the unget-reserve size in bytes
(`stdio_impl.h` UNGET, not under `src/`); musl's value. -/
def UNGET : Nat := 8

/-- Modelled from the spec: the fixed main-buffer capacity
(`<stdio.h>` BUFSIZ); musl's value. -/
def BUFSIZ : Nat := 1024

/-- Modelled from the spec: the size of the stream-object header
(`sizeof(FILE)`); a fixed positive constant whose exact value is
immaterial to the claims. -/
def sizeofFILE : Nat := 232

/-- The four descriptor-backed operation implementations that the
attacher binds into the operation table (their bodies are external
collaborators, out of scope; only their identity matters). -/
inductive StdioOp where
  | stdio_read
  | stdio_write
  | stdio_seek
  | stdio_close
  deriving DecidableEq, Repr

/-- The fields of the stream object (`FILE`) that `__fdopen` assigns. -/
structure FILE where
  flags : Nat
  fd : Int
  buf : Nat
  buf_size : Nat
  lbf : Int
  read : StdioOp
  write : StdioOp
  seek : StdioOp
  close : StdioOp
  deriving DecidableEq, Repr

/-- The environment: behaviour of the OS collaborators during one call.
`statusFlags` and `fdFlags` are the descriptor's flag state at entry;
`getflOk`, `mallocOk`, `setfdOk`, `setflOk` say whether the
corresponding collaborator call succeeds; `base` is the address
`malloc` returns on success; `tty` is the terminal-detection answer. -/
structure Env where
  getflOk : Bool
  statusFlags : Nat
  fdFlags : Nat
  mallocOk : Bool
  base : Nat
  setfdOk : Bool
  setflOk : Bool
  tty : Bool
  deriving DecidableEq, Repr

/-- A descriptor-mutating system call issued during the attach. -/
inductive FdCall where
  | setfd (arg : Nat)
  | setfl (arg : Nat)
  deriving DecidableEq, Repr

/-- Everything observable about one `__fdopen` call. -/
structure FdopenResult where
  ret : Option FILE
  errnoSet : Option Nat
  mallocCalled : Bool
  statusFlags : Nat
  fdFlags : Nat
  fdCalls : List FdCall
  registered : List FILE
  deriving DecidableEq, Repr

/-- The NUL terminator character of a C string. -/
def nulChar : Char := Char.ofNat 0

/-- C dereference of the mode-string pointer (`*mode`): the first
character, or the NUL terminator when the string is empty. -/
def cstrHead (s : List Char) : Char := s.headD nulChar

/-- C `strchr` viewed as a membership test on a string with contents
`s`: it returns a non-null pointer exactly when `c` occurs in `s` or
`c` is the NUL terminator (which `strchr` also finds). -/
def cstrchr (s : List Char) (c : Char) : Bool := decide (c ∈ s ∨ c = nulChar)

/-- The success path of `__fdopen` (lines 28-62 of the C file), reached
once validation, the `fcntl(fd, F_GETFL)` query and the `malloc` have
all succeeded: zero the header, derive the direction flags, issue the
discarded `fcntl(fd, F_SETFD, FD_CLOEXEC)` and
`fcntl(fd, F_SETFL, flags | O_APPEND)` calls, set up the buffer and
line-buffering byte, bind the operation table, and insert the stream
into the registry via `__ofl_add(f)` (modelled from the spec: the
registry insert links the stream into the process-wide list and
returns it). -/
def successResult (env : Env) (fd : Int) (mode : List Char) : FdopenResult :=
  let flags := env.statusFlags
  let fflags0 : Nat :=
    if ¬ cstrchr mode ('+') then
      if cstrHead mode == 'r' then F_NOWR else F_NORD
    else 0
  let calls1 : List FdCall :=
    if cstrchr mode ('e') then [FdCall.setfd FD_CLOEXEC] else []
  let fdFlags1 : Nat :=
    if cstrchr mode ('e') && env.setfdOk then FD_CLOEXEC
    else env.fdFlags
  let isAppend : Bool := cstrHead mode == 'a'
  let calls2 : List FdCall :=
    calls1 ++ (if isAppend && (flags &&& O_APPEND == 0) then
      [FdCall.setfl (flags ||| O_APPEND)] else [])
  let statusFlags2 : Nat :=
    if isAppend && (flags &&& O_APPEND == 0) && env.setflOk then
      flags ||| O_APPEND
    else env.statusFlags
  let fflags1 : Nat := if isAppend then fflags0 ||| F_APP else fflags0
  let lbf1 : Int :=
    if (fflags1 &&& F_NOWR == 0) && env.tty then 10 else EOF
  let f : FILE :=
    { flags := fflags1, fd := fd,
      buf := env.base + sizeofFILE + UNGET, buf_size := BUFSIZ,
      lbf := lbf1,
      read := StdioOp.stdio_read, write := StdioOp.stdio_write,
      seek := StdioOp.stdio_seek, close := StdioOp.stdio_close }
  { ret := some f, errnoSet := none, mallocCalled := true,
    statusFlags := statusFlags2, fdFlags := fdFlags1,
    fdCalls := calls2, registered := [f] }

/-- Shallow embedding of `__fdopen` from
`src/third_party/ulib/musl/src/stdio/__fdopen.c`: mode-character
validation via `strchr("rwa", *mode)` (`errno = EINVAL` and null on
failure), the `fcntl(fd, F_GETFL)` query (null on failure, `errno`
left to `fcntl`), the single `malloc` of
`sizeof *f + UNGET + BUFSIZ` bytes (null on failure), and then the
success path `successResult`. -/
def __fdopen (env : Env) (fd : Int) (mode : List Char) : FdopenResult :=
  if ¬ cstrchr ['r', 'w', 'a'] (cstrHead mode) then
    { ret := none, errnoSet := some EINVAL, mallocCalled := false,
      statusFlags := env.statusFlags, fdFlags := env.fdFlags,
      fdCalls := [], registered := [] }
  else if ¬ env.getflOk then
    { ret := none, errnoSet := none, mallocCalled := false,
      statusFlags := env.statusFlags, fdFlags := env.fdFlags,
      fdCalls := [], registered := [] }
  else if ¬ env.mallocOk then
    { ret := none, errnoSet := none, mallocCalled := true,
      statusFlags := env.statusFlags, fdFlags := env.fdFlags,
      fdCalls := [], registered := [] }
  else successResult env fd mode

/-- A default environment for concrete evaluations: a healthy regular
(non-terminal) descriptor with all flags clear, and a cooperative
allocator and kernel. -/
def env0 : Env :=
  { getflOk := true, statusFlags := 0, fdFlags := 0, mallocOk := true,
    base := 4096, setfdOk := true, setflOk := true, tty := false }

example : (__fdopen env0 3 ['r']).ret =
    some { flags := F_NOWR, fd := 3, buf := 4096 + sizeofFILE + UNGET,
           buf_size := BUFSIZ, lbf := EOF,
           read := StdioOp.stdio_read, write := StdioOp.stdio_write,
           seek := StdioOp.stdio_seek, close := StdioOp.stdio_close } := by
  decide

example : (__fdopen env0 3 ['x']).errnoSet = some EINVAL := by
  decide

/-- When validation, the flags query and the allocation all succeed,
`__fdopen` is its success path. -/
theorem fdopen_eq_success (env : Env) (fd : Int) (mode : List Char)
    (hv : cstrchr ['r', 'w', 'a'] (cstrHead mode) = true)
    (hg : env.getflOk = true) (hm : env.mallocOk = true) :
    __fdopen env fd mode = successResult env fd mode := by
  simp [__fdopen, hv, hg, hm]

/-- A non-null return forces all three guards to have passed. -/
theorem fdopen_some_conds (env : Env) (fd : Int) (mode : List Char) (f : FILE)
    (h : (__fdopen env fd mode).ret = some f) :
    cstrchr ['r', 'w', 'a'] (cstrHead mode) = true ∧
    env.getflOk = true ∧ env.mallocOk = true := by
  by_cases hv : cstrchr ['r', 'w', 'a'] (cstrHead mode) = true
  · by_cases hg : env.getflOk = true
    · by_cases hm : env.mallocOk = true
      · exact ⟨hv, hg, hm⟩
      · simp [__fdopen, hv, hg, hm] at h
    · simp [__fdopen, hv, hg] at h
  · simp [__fdopen, hv] at h

/-- Setting a non-zero bit mask with OR makes the AND with that mask
non-zero. -/
theorem lor_land_self_ne_zero (x m : Nat) (hm : m ≠ 0) :
    (x ||| m) &&& m ≠ 0 := by
  intro h0
  apply hm
  apply Nat.eq_of_testBit_eq
  intro i
  have hbit := congrArg (fun n => n.testBit i) h0
  simp only [Nat.testBit_and, Nat.testBit_or, Nat.zero_testBit] at hbit ⊢
  cases hx : x.testBit i <;> cases hmi : m.testBit i <;>
    simp [hx, hmi] at hbit ⊢

/-- C1: for every mode string whose first character is an actual
character (not the NUL terminator) outside {r, w, a}, `__fdopen` fails
with `errno = EINVAL` and a null result, calls the allocator not at
all, issues no descriptor-mutating system call, leaves both descriptor
flag words unchanged, and registers nothing. -/
theorem fdopen_invalid_first_char (env : Env) (fd : Int) (c : Char)
    (rest : List Char)
    (hr : c ≠ 'r') (hw : c ≠ 'w') (ha : c ≠ 'a') (h0 : c ≠ nulChar) :
    __fdopen env fd (c :: rest) =
      { ret := none, errnoSet := some EINVAL, mallocCalled := false,
        statusFlags := env.statusFlags, fdFlags := env.fdFlags,
        fdCalls := [], registered := [] } := by
  have hv : cstrchr ['r', 'w', 'a'] (cstrHead (c :: rest)) = false := by
    simp [cstrchr, cstrHead, hr, hw, ha, h0]
  simp [__fdopen, hv]

/-- C1 witness: mode "x" on a healthy descriptor. -/
theorem fdopen_invalid_first_char_witness :
    __fdopen env0 7 ('x' :: []) =
      { ret := none, errnoSet := some EINVAL, mallocCalled := false,
        statusFlags := env0.statusFlags, fdFlags := env0.fdFlags,
        fdCalls := [], registered := [] } :=
  fdopen_invalid_first_char env0 7 'x' [] (by decide) (by decide)
    (by decide) (by decide)

/-- C5: when the first mode character is valid but the
`fcntl(fd, F_GETFL)` query fails, `__fdopen` returns null without
writing `errno` itself (the query's error is propagated), calls no
allocator, issues no descriptor-mutating call, leaves both descriptor
flag words unchanged, and registers no stream. -/
theorem fdopen_query_failure (env : Env) (fd : Int) (mode : List Char)
    (hv : cstrchr ['r', 'w', 'a'] (cstrHead mode) = true)
    (hg : env.getflOk = false) :
    __fdopen env fd mode =
      { ret := none, errnoSet := none, mallocCalled := false,
        statusFlags := env.statusFlags, fdFlags := env.fdFlags,
        fdCalls := [], registered := [] } := by
  simp [__fdopen, hv, hg]

/-- C5 witness: mode "r" on a descriptor whose flags query fails. -/
theorem fdopen_query_failure_witness :
    __fdopen { env0 with getflOk := false } 9 ['r'] =
      { ret := none, errnoSet := none, mallocCalled := false,
        statusFlags := env0.statusFlags, fdFlags := env0.fdFlags,
        fdCalls := [], registered := [] } :=
  fdopen_query_failure { env0 with getflOk := false } 9 ['r']
    (by decide) (by decide)

/-- C9: the empty mode string passes the first-character check
(`strchr("rwa", *mode)` finds the NUL terminator), so with a
successful flags query and allocation `__fdopen` does not fail with
`EINVAL` but returns a stream whose no-read bit is set and whose
no-write bit is clear. -/
theorem fdopen_empty_mode (env : Env) (fd : Int)
    (hg : env.getflOk = true) (hm : env.mallocOk = true) :
    (__fdopen env fd []).errnoSet = none ∧
    ∃ f, (__fdopen env fd []).ret = some f ∧
      f.flags &&& F_NORD ≠ 0 ∧ f.flags &&& F_NOWR = 0 := by
  have hv : cstrchr ['r', 'w', 'a'] (cstrHead ([] : List Char)) = true := by
    decide
  rw [fdopen_eq_success env fd [] hv hg hm]
  exact ⟨rfl, _, rfl, by dsimp only; decide, by dsimp only; decide⟩

/-- C9 witness: the empty mode string on a healthy descriptor. -/
theorem fdopen_empty_mode_witness :
    (__fdopen env0 3 []).errnoSet = none ∧
    ∃ f, (__fdopen env0 3 []).ret = some f ∧
      f.flags &&& F_NORD ≠ 0 ∧ f.flags &&& F_NOWR = 0 :=
  fdopen_empty_mode env0 3 (by decide) (by decide)

/-- C10: `__fdopen` reads the mode string only through its first
character, whether it contains `+`, and whether it contains `e`; two
mode strings agreeing on those three facts produce identical results
(same return, errno, allocation, descriptor mutations and
registration) on the same descriptor and environment. -/
theorem fdopen_mode_abstraction (env : Env) (fd : Int)
    (m₁ m₂ : List Char)
    (h1 : cstrHead m₁ = cstrHead m₂)
    (h2 : cstrchr m₁ '+' = cstrchr m₂ '+')
    (h3 : cstrchr m₁ 'e' = cstrchr m₂ 'e') :
    __fdopen env fd m₁ = __fdopen env fd m₂ := by
  simp only [__fdopen, successResult, h1, h2, h3]

/-- C10 witness: modes "rb" and "r" agree on the three facts and give
identical results. -/
theorem fdopen_mode_abstraction_witness :
    __fdopen env0 3 ['r', 'b'] = __fdopen env0 3 ['r'] :=
  fdopen_mode_abstraction env0 3 ['r', 'b'] ['r'] (by decide)
    (by decide) (by decide)

/-- C6: once validation, the flags query and the allocation succeed,
`__fdopen` always completes: it returns a stream, that stream is
exactly the one inserted into the process-wide registry, no errno is
written, and all four operation-table slots are bound to the
descriptor-backed implementations. -/
theorem fdopen_no_failure_after_alloc (env : Env) (fd : Int)
    (mode : List Char)
    (hv : cstrchr ['r', 'w', 'a'] (cstrHead mode) = true)
    (hg : env.getflOk = true) (hm : env.mallocOk = true) :
    ∃ f, (__fdopen env fd mode).ret = some f ∧
      (__fdopen env fd mode).registered = [f] ∧
      (__fdopen env fd mode).errnoSet = none ∧
      f.read = StdioOp.stdio_read ∧ f.write = StdioOp.stdio_write ∧
      f.seek = StdioOp.stdio_seek ∧ f.close = StdioOp.stdio_close := by
  rw [fdopen_eq_success env fd mode hv hg hm]
  exact ⟨_, rfl, rfl, rfl, rfl, rfl, rfl, rfl⟩

/-- C6 witness: mode "w" on a healthy descriptor. -/
theorem fdopen_no_failure_after_alloc_witness :
    ∃ f, (__fdopen env0 5 ['w']).ret = some f ∧
      (__fdopen env0 5 ['w']).registered = [f] ∧
      (__fdopen env0 5 ['w']).errnoSet = none ∧
      f.read = StdioOp.stdio_read ∧ f.write = StdioOp.stdio_write ∧
      f.seek = StdioOp.stdio_seek ∧ f.close = StdioOp.stdio_close :=
  fdopen_no_failure_after_alloc env0 5 ['w'] (by decide) (by decide)
    (by decide)

/-- C8: every stream `__fdopen` returns has its buffer pointer at the
allocation base plus the header size plus the unget reserve, and its
recorded capacity is the fixed constant `BUFSIZ`. -/
theorem fdopen_buffer_layout (env : Env) (fd : Int) (mode : List Char)
    (f : FILE) (h : (__fdopen env fd mode).ret = some f) :
    f.buf = env.base + sizeofFILE + UNGET ∧ f.buf_size = BUFSIZ := by
  obtain ⟨hv, hg, hm⟩ := fdopen_some_conds env fd mode f h
  rw [fdopen_eq_success env fd mode hv hg hm] at h
  simp only [successResult, Option.some.injEq] at h
  subst h
  exact ⟨rfl, rfl⟩

/-- The stream produced by mode "r" on `env0`: used to instantiate the
success-path theorems at a concrete input. -/
def fileR : FILE :=
  { flags := F_NOWR, fd := 3, buf := env0.base + sizeofFILE + UNGET,
    buf_size := BUFSIZ, lbf := EOF, read := StdioOp.stdio_read,
    write := StdioOp.stdio_write, seek := StdioOp.stdio_seek,
    close := StdioOp.stdio_close }

/-- C8 witness: mode "r" on a healthy descriptor. -/
theorem fdopen_buffer_layout_witness :
    fileR.buf = env0.base + sizeofFILE + UNGET ∧
    fileR.buf_size = BUFSIZ :=
  fdopen_buffer_layout env0 3 ['r'] fileR (by decide)

/-- The mode flags of the stream built by the success path, as a
function of the mode string. -/
theorem successResult_flags (env : Env) (fd : Int) (mode : List Char)
    (f : FILE) (h : (successResult env fd mode).ret = some f) :
    f.flags = if cstrHead mode == 'a' then
        (if ¬ cstrchr mode '+' then
          if cstrHead mode == 'r' then F_NOWR else F_NORD
        else 0) ||| F_APP
      else
        (if ¬ cstrchr mode '+' then
          if cstrHead mode == 'r' then F_NOWR else F_NORD
        else 0) := by
  simp only [successResult, Option.some.injEq] at h
  subst h
  rfl

/-- The line-buffering byte of the stream built by the success path:
the line terminator exactly when the no-write bit is clear and the
descriptor is a terminal, else `EOF`. -/
theorem successResult_lbf (env : Env) (fd : Int) (mode : List Char)
    (f : FILE) (h : (successResult env fd mode).ret = some f) :
    f.lbf = if (f.flags &&& F_NOWR == 0) && env.tty then 10 else EOF := by
  simp only [successResult, Option.some.injEq] at h
  subst h
  rfl

/-- C2: every stream `__fdopen` returns has exactly one of the
no-read/no-write bits set when the mode string has no `+` (no-write
exactly when the first character is `r`, no-read otherwise), neither
bit set when the mode string has `+`, and never both bits set. -/
theorem fdopen_direction_flags (env : Env) (fd : Int) (mode : List Char)
    (f : FILE) (h : (__fdopen env fd mode).ret = some f) :
    (cstrchr mode '+' = false →
      ((f.flags &&& F_NOWR ≠ 0 ∧ f.flags &&& F_NORD = 0) ↔
        cstrHead mode = 'r') ∧
      ((f.flags &&& F_NORD ≠ 0 ∧ f.flags &&& F_NOWR = 0) ↔
        cstrHead mode ≠ 'r')) ∧
    (cstrchr mode '+' = true →
      f.flags &&& F_NOWR = 0 ∧ f.flags &&& F_NORD = 0) ∧
    ¬ (f.flags &&& F_NOWR ≠ 0 ∧ f.flags &&& F_NORD ≠ 0) := by
  obtain ⟨hv, hg, hm⟩ := fdopen_some_conds env fd mode f h
  rw [fdopen_eq_success env fd mode hv hg hm] at h
  rw [successResult_flags env fd mode f h]
  by_cases hrb : (cstrHead mode == 'r') = true
  · have hr : cstrHead mode = 'r' := by simpa using hrb
    have hab : (cstrHead mode == 'a') = false := by simp [hr]
    by_cases hp : cstrchr mode '+' = true
    · simp [hp, hrb, hab, hr]
    · simp [hp, hrb, hab, hr]; decide
  · have hr : cstrHead mode ≠ 'r' := by simpa using hrb
    by_cases hab : (cstrHead mode == 'a') = true
    · by_cases hp : cstrchr mode '+' = true
      · simp [hp, hrb, hab, hr]; decide
      · simp [hp, hrb, hab, hr]; decide
    · by_cases hp : cstrchr mode '+' = true
      · simp [hp, hrb, hab, hr]
      · simp [hp, hrb, hab, hr]; decide

/-- C2 witness: mode "r" on a healthy descriptor. -/
theorem fdopen_direction_flags_witness :
    ¬ (fileR.flags &&& F_NOWR ≠ 0 ∧ fileR.flags &&& F_NORD ≠ 0) :=
  (fdopen_direction_flags env0 3 ['r'] fileR (by decide)).2.2

/-- C4: every stream `__fdopen` returns is line-buffered with sentinel
`'\n'` exactly when its no-write bit is clear and the descriptor is a
terminal; in every other case the sentinel is `EOF`. -/
theorem fdopen_line_buffering (env : Env) (fd : Int) (mode : List Char)
    (f : FILE) (h : (__fdopen env fd mode).ret = some f) :
    (f.lbf = 10 ↔ (f.flags &&& F_NOWR = 0 ∧ env.tty = true)) ∧
    (f.lbf = 10 ∨ f.lbf = EOF) := by
  obtain ⟨hv, hg, hm⟩ := fdopen_some_conds env fd mode f h
  rw [fdopen_eq_success env fd mode hv hg hm] at h
  rw [successResult_lbf env fd mode f h]
  by_cases hc : ((f.flags &&& F_NOWR == 0) && env.tty) = true
  · rw [if_pos hc]
    rw [Bool.and_eq_true, beq_iff_eq] at hc
    simp [hc.1, hc.2]
  · rw [if_neg hc]
    rw [Bool.and_eq_true, beq_iff_eq] at hc
    refine ⟨⟨fun h10 => absurd h10 (by decide),
      fun hcon => absurd hcon hc⟩, Or.inr rfl⟩

/-- C4 witness: mode "r" on a healthy non-terminal descriptor. -/
theorem fdopen_line_buffering_witness :
    fileR.lbf = 10 ∨ fileR.lbf = EOF :=
  (fdopen_line_buffering env0 3 ['r'] fileR (by decide)).2

/-- C7: when the mode string contains `e` (and the first character is
valid and the query and allocation succeed), `__fdopen` issues the
`fcntl(fd, F_SETFD, FD_CLOEXEC)` call, and its result is discarded:
the returned stream and the errno behaviour are identical whether
that call succeeds or fails. -/
theorem fdopen_cloexec_best_effort (env : Env) (fd : Int)
    (mode : List Char) (b₁ b₂ : Bool)
    (he : cstrchr mode 'e' = true)
    (hv : cstrchr ['r', 'w', 'a'] (cstrHead mode) = true)
    (hg : env.getflOk = true) (hm : env.mallocOk = true) :
    FdCall.setfd FD_CLOEXEC ∈
      (__fdopen { env with setfdOk := b₁ } fd mode).fdCalls ∧
    (__fdopen { env with setfdOk := b₁ } fd mode).ret =
      (__fdopen { env with setfdOk := b₂ } fd mode).ret ∧
    (__fdopen { env with setfdOk := b₁ } fd mode).errnoSet =
      (__fdopen { env with setfdOk := b₂ } fd mode).errnoSet := by
  rw [fdopen_eq_success { env with setfdOk := b₁ } fd mode hv hg hm,
    fdopen_eq_success { env with setfdOk := b₂ } fd mode hv hg hm]
  refine ⟨?_, rfl, rfl⟩
  simp [successResult, he]

/-- C7 witness: mode "re" on a healthy descriptor, with the
close-on-exec call succeeding versus failing. -/
theorem fdopen_cloexec_best_effort_witness :
    FdCall.setfd FD_CLOEXEC ∈
      (__fdopen { env0 with setfdOk := true } 3 ['r', 'e']).fdCalls ∧
    (__fdopen { env0 with setfdOk := true } 3 ['r', 'e']).ret =
      (__fdopen { env0 with setfdOk := false } 3 ['r', 'e']).ret ∧
    (__fdopen { env0 with setfdOk := true } 3 ['r', 'e']).errnoSet =
      (__fdopen { env0 with setfdOk := false } 3 ['r', 'e']).errnoSet :=
  fdopen_cloexec_best_effort env0 3 ['r', 'e'] true false (by decide)
    (by decide) (by decide) (by decide)

/-- C3 counterexample: with the discarded
`fcntl(fd, F_SETFL, flags | O_APPEND)` call failing, mode "a" on a
descriptor whose queried flags do not include append still attaches
successfully with the stream's append bit set, yet the descriptor's
kernel-level flags do not include append afterwards — refuting the
claim that a successful attach alone guarantees the kernel append
flag. -/
theorem fdopen_append_claim_counterexample :
    (__fdopen { env0 with setflOk := false } 3 ['a']).ret ≠ none ∧
    ((__fdopen { env0 with setflOk := false } 3 ['a']).ret.elim 0
      FILE.flags) &&& F_APP ≠ 0 ∧
    env0.statusFlags &&& O_APPEND = 0 ∧
    (__fdopen { env0 with setflOk := false } 3 ['a']).statusFlags &&&
      O_APPEND = 0 := by
  decide

/-- C3 (amended): for a descriptor whose queried flags do not include
append and a mode string starting with `a`, a successful attach
issues the `fcntl(fd, F_SETFL, flags | O_APPEND)` request and sets
the stream's append bit regardless; the descriptor's kernel-level
flags include append afterwards provided that (discarded) flag-set
call succeeds. -/
theorem fdopen_append_amended (env : Env) (fd : Int) (mode : List Char)
    (f : FILE)
    (ha : cstrHead mode = 'a') (hnap : env.statusFlags &&& O_APPEND = 0)
    (h : (__fdopen env fd mode).ret = some f) :
    FdCall.setfl (env.statusFlags ||| O_APPEND) ∈
      (__fdopen env fd mode).fdCalls ∧
    f.flags &&& F_APP ≠ 0 ∧
    (env.setflOk = true →
      (__fdopen env fd mode).statusFlags &&& O_APPEND ≠ 0) := by
  obtain ⟨hv, hg, hm⟩ := fdopen_some_conds env fd mode f h
  rw [fdopen_eq_success env fd mode hv hg hm] at h ⊢
  simp only [successResult, Option.some.injEq] at h
  subst h
  have hab : (cstrHead mode == 'a') = true := by simp [ha]
  refine ⟨?_, ?_, ?_⟩
  · simp [successResult, hab, hnap]
  · simp only [FILE.flags]
    rw [if_pos hab]
    exact lor_land_self_ne_zero _ F_APP (by decide)
  · intro hsf
    simp only [successResult, FdopenResult.statusFlags]
    rw [if_pos (by simp [hab, hnap, hsf] : ((cstrHead mode == 'a') &&
      (env.statusFlags &&& O_APPEND == 0) && env.setflOk) = true)]
    exact lor_land_self_ne_zero _ O_APPEND (by decide)

/-- The stream produced by mode "a" on `env0`: `fileR` with the
no-read and append bits instead of no-write. -/
def fileA : FILE := { fileR with flags := F_NORD ||| F_APP }

/-- C3 (amended) witness: mode "a" on a healthy descriptor without
append, with the flag-set call succeeding. -/
theorem fdopen_append_amended_witness :
    FdCall.setfl (env0.statusFlags ||| O_APPEND) ∈
      (__fdopen env0 3 ['a']).fdCalls ∧
    fileA.flags &&& F_APP ≠ 0 ∧
    (env0.setflOk = true →
      (__fdopen env0 3 ['a']).statusFlags &&& O_APPEND ≠ 0) :=
  fdopen_append_amended env0 3 ['a'] fileA (by decide) (by decide)
    (by decide)

end Fdopen
